import Mathlib

/-!
Shallow embedding of the Renogy Bluetooth integration's device
communication/protocol engine: binary codec utilities, per-family section
decoders (inverter, DC-DC charger, shunt, test), the device session
notification/retry state machine, and the device-type dispatch layer.

Sources embedded: `renogy/device.py`, `renogy/device_inverter.py`,
`renogy/device_dc_charger.py`, `renogy/device_shunt.py`,
`renogy/device_test.py`, `api.py`.  The codec module `renogy/utils.py`
(`bytes_to_int`, `int_to_bytes`, `crc16_modbus`) is imported by the sources
but absent from the source tree, so those three functions are modelled from
the specification (section 4.1).

Modelling conventions: byte buffers are `List Nat` with entries 0..255;
Python floats are modelled as exact unnormalised fractions (numerator and
denominator, constructed only by the scale multiplications the code
performs); a Python function that can raise returns `Option`; Python `dict`
values that may be `None` are `Option String`.
-/

set_option maxRecDepth 4000

namespace Renogy

/-! ## Binary codec utilities (modelled from the spec, `renogy/utils.py` missing) -/

/-- Modelled from the spec: big-endian accumulation of the `len` bytes of `bs` starting at `offset`
(total helper; callers guard the range). -/
def beNat (bs : List Nat) (offset len : Nat) : Nat :=
  ((bs.drop offset).take len).foldl (fun a b => a * 256 + b) 0

/-- Modelled from the spec: two's-complement reading of the big-endian value over `len` bytes
(sign-extended from the top extracted bit, per spec section 4.4). -/
def beSigned (bs : List Nat) (offset len : Nat) : Int :=
  let v := beNat bs offset len
  if v < 2 ^ (8 * len - 1) then (v : Int) else (v : Int) - 2 ^ (8 * len)

/-- Modelled from the spec: `bytes_to_int(buffer, offset, length)` from the
missing `renogy/utils.py`, unsigned big-endian form — reads `length` bytes at
`offset`; fails (`RangeError`) when `offset+length` exceeds the buffer. -/
def bytes_to_int (bs : List Nat) (offset len : Nat) : Option Nat :=
  if offset + len ≤ bs.length then some (beNat bs offset len) else none

/-- Modelled from the spec: the `signed=true` form of `bytes_to_int` from the
missing `renogy/utils.py` (two's-complement over the extracted width). -/
def bytes_to_int_signed (bs : List Nat) (offset len : Nat) : Option Int :=
  if offset + len ≤ bs.length then some (beSigned bs offset len) else none

/-- Modelled from the spec: `int_to_bytes(value, byte_index)` from the missing
`renogy/utils.py` — high byte of a 16-bit value for index 0, low byte for
index 1. -/
def int_to_bytes (value idx : Nat) : Nat :=
  if idx = 0 then value / 256 % 256 else value % 256

/-- Modelled from the spec: one CRC-16/Modbus bit round: shift right, xor with 0xA001 when the low
bit was set. -/
def crcBit (c : Nat) : Nat :=
  if c % 2 = 1 then (c / 2) ^^^ 0xA001 else c / 2

/-- Modelled from the spec: fold one byte into the CRC accumulator: xor, then 8 bit rounds. -/
def crcByte (c b : Nat) : Nat :=
  (List.range 8).foldl (fun acc _ => crcBit acc) (c ^^^ b)

/-- Modelled from the spec: `crc16_modbus(bytes)` from the missing
`renogy/utils.py` — standard CRC-16/Modbus (polynomial 0xA001 reflected,
initial value 0xFFFF), returned as (low byte, high byte). -/
def crc16_modbus (bs : List Nat) : Nat × Nat :=
  let c := bs.foldl crcByte 0xFFFF
  (c % 256, c / 256)

/-- The `RenogyDevice.create_generic_read_request` from `renogy/device.py`:
6 header bytes followed by the CRC low and high bytes. -/
def create_generic_read_request (device_id function regAddr readWrd : Nat) : List Nat :=
  let data := [device_id, function,
               int_to_bytes regAddr 0, int_to_bytes regAddr 1,
               int_to_bytes readWrd 0, int_to_bytes readWrd 1]
  let crc := crc16_modbus data
  data ++ [crc.1, crc.2]

/-! ## Python string helpers -/

/-- Fuel-indexed strict UTF-8 decoder (fuel keeps the recursion structural so
that proofs can evaluate it).  Rejects continuation-byte starts, overlong
encodings, surrogates and code points above U+10FFFF, as Python's strict
`bytes.decode("utf-8")` does. -/
def utf8DecodeF : Nat → List Nat → Option (List Char)
  | _, [] => some []
  | 0, _ :: _ => none
  | fuel+1, b :: rest =>
    if b < 0x80 then
      (utf8DecodeF fuel rest).map (fun cs => Char.ofNat b :: cs)
    else if b < 0xC2 then none
    else if b < 0xE0 then
      match rest with
      | c1 :: rest2 =>
        if 0x80 ≤ c1 && c1 < 0xC0 then
          (utf8DecodeF fuel rest2).map
            (fun cs => Char.ofNat ((b - 0xC0) * 0x40 + (c1 - 0x80)) :: cs)
        else none
      | [] => none
    else if b < 0xF0 then
      match rest with
      | c1 :: c2 :: rest3 =>
        if ((0x80 ≤ c1 && c1 < 0xC0) && (0x80 ≤ c2 && c2 < 0xC0))
            && (!(b == 0xE0 && c1 < 0xA0) && !(b == 0xED && 0xA0 ≤ c1)) then
          (utf8DecodeF fuel rest3).map
            (fun cs => Char.ofNat ((b - 0xE0) * 0x1000 + (c1 - 0x80) * 0x40 + (c2 - 0x80)) :: cs)
        else none
      | _ => none
    else if b < 0xF5 then
      match rest with
      | c1 :: c2 :: c3 :: rest4 =>
        if (((0x80 ≤ c1 && c1 < 0xC0) && (0x80 ≤ c2 && c2 < 0xC0)) && (0x80 ≤ c3 && c3 < 0xC0))
            && (!(b == 0xF0 && c1 < 0x90) && !(b == 0xF4 && 0x90 ≤ c1)) then
          (utf8DecodeF fuel rest4).map
            (fun cs =>
              Char.ofNat ((b - 0xF0) * 0x40000 + (c1 - 0x80) * 0x1000
                + (c2 - 0x80) * 0x40 + (c3 - 0x80)) :: cs)
        else none
      | _ => none
    else none

/-- Python `bytes.decode("utf-8")` (strict): `none` models the
`UnicodeDecodeError` raised on invalid input. -/
def utf8Decode (l : List Nat) : Option (List Char) :=
  utf8DecodeF l.length l

/-- The ASCII whitespace characters removed by Python `str.strip()`. -/
def isPySpace (c : Char) : Bool :=
  c = ' ' || c = '\t' || c = '\n' || c = '\x0d' || c = '\x0b' || c = '\x0c'

/-- Python `str.strip()` on a character list (ASCII whitespace). -/
def pyStrip (s : List Char) : List Char :=
  ((s.dropWhile isPySpace).reverse.dropWhile isPySpace).reverse

/-- Python `str.strip()` on a string. -/
def pyStripS (s : String) : String := ⟨pyStrip s.data⟩

/-- Python `str.rstrip("\x00")` on a character list (trailing NUL removal,
used by the inverter model parser). -/
def pyRstripNul (s : List Char) : List Char :=
  (s.reverse.dropWhile (fun c => c = '\x00')).reverse

/-! ## Data model (`renogy/device.py`) -/

/-- The `RenogyDeviceType` enumeration from `renogy/device.py`. -/
inductive RenogyDeviceType where
  | temperature_sensor
  | door_sensor
  | voltage_sensor
  | current_sensor
  | amp_hours_sensor
  | power_sensor
  | energy_storage
  | percentage
  | string_data
  | int_data
  deriving Repr, DecidableEq

/-- Value stored in a measurement's `state` field.  `intv` is a Python int
(unscaled extraction), `fltv num den` is the exact fraction num/den modelling
a Python float produced by a scale multiplication, `strv` a string, and
`ostrv` an optional string (a `dict.get` result that may be `None`). -/
inductive StateVal where
  | intv : Int → StateVal
  | fltv : Int → Nat → StateVal
  | strv : String → StateVal
  | ostrv : Option String → StateVal
  deriving Repr, DecidableEq

/-- The `RenogyDeviceData` dataclass from `renogy/device.py`; attributes are an
insertion-ordered dict with values that may be `None`. -/
structure RenogyDeviceData where
  device_id : Nat
  device_name : String
  device_unique_id : String
  device_type : RenogyDeviceType
  name : String
  state : StateVal
  is_main : Bool
  attributes : List (String × Option String)
  deriving Repr, DecidableEq

/-- Configuration a session is constructed with: BLE address, advertised
device name, and user-configured display name. -/
structure DeviceCtx where
  mac : String
  deviceName : String
  cfgName : String
  deriving Repr, DecidableEq

/-- Python `str.lower()` followed by `str.replace(":", "_")` (ASCII model of
`lower`, adequate for BLE addresses). -/
def pyLowerReplaceColon (mac : String) : String :=
  ⟨mac.data.map (fun c => if c = ':' then '_' else c.toLower)⟩

/-- The `RenogyDevice.device_unique_id`: `"renogy_" + mac.lower().replace(":", "_") + "_id"`. -/
def device_unique_id (mac : String) : String :=
  "renogy_" ++ pyLowerReplaceColon mac ++ "_id"

/-- Per-entity unique id: `self.device_unique_id + f"_{entity_id}"`. -/
def entityUid (mac : String) (k : Nat) : String :=
  device_unique_id mac ++ "_" ++ toString k

/-- Cross-section mutable decoder state cached on the session instance:
the cached model string, the cached battery type (a `dict.get` result, so
possibly `None`), and the shunt/test `first_parse` latch. -/
structure DecState where
  model : String
  batteryType : Option String
  firstParse : Bool
  deriving Repr, DecidableEq

/-- Fresh decoder state as set by the constructors (`model = "Unknown"`,
`battery_type = "Unknown"`, `first_parse = True`). -/
def initDecState : DecState :=
  { model := "Unknown", batteryType := some "Unknown", firstParse := true }

/-- Result of one `parse_section` call: the updated decoder state, the
`valid` flag and the emitted entities.  A `parse_section` invocation that
raises (out-of-range read, undecodable bytes) is `none` at the call site. -/
structure ParseOut where
  st : DecState
  valid : Bool
  entities : List RenogyDeviceData
  deriving Repr, DecidableEq

/-! ## DC-DC charger decoder (`renogy/device_dc_charger.py`) -/

/-- The `CHARGING_STATE` dict from `renogy/device_dc_charger.py` (`dict.get`,
so `none` for absent keys; the source has no entry for key 7). -/
def CHARGING_STATE (code : Nat) : Option String :=
  if code = 0 then some "deactivated"
  else if code = 1 then some "activated"
  else if code = 2 then some "mppt"
  else if code = 3 then some "equalizing"
  else if code = 4 then some "boost"
  else if code = 5 then some "floating"
  else if code = 6 then some "current limiting"
  else if code = 8 then some "alternator direct"
  else none

/-- The `BATTERY_TYPE` dict from `renogy/device_dc_charger.py`. -/
def BATTERY_TYPE (code : Nat) : Option String :=
  if code = 1 then some "open"
  else if code = 2 then some "sealed"
  else if code = 3 then some "gel"
  else if code = 4 then some "lithium"
  else if code = 5 then some "custom"
  else none

/-- The `ha_device_name` of `DCChargerDevice`. -/
def dcHaName : String := "Renogy DC-DC Charger"

/-- The `DCChargerDevice.parse_device_info`: caches
`bs[3:19].decode("utf-8").strip()` as the model; `none` models the
`UnicodeDecodeError` on undecodable bytes (Python slicing itself never
fails). -/
def dcParseDeviceInfo (st : DecState) (bs : List Nat) : Option ParseOut :=
  (utf8Decode ((bs.drop 3).take 16)).map
    (fun cs => ⟨{ st with model := ⟨pyStrip cs⟩ }, true, []⟩)

/-- The `DCChargerDevice.parse_device_address`: one `Device ID` entity from the
byte at offset 4. -/
def dcParseDeviceAddress (ctx : DeviceCtx) (st : DecState) (bs : List Nat) : Option ParseOut :=
  (bytes_to_int bs 4 1).map (fun v =>
    ⟨st, true,
      [⟨1, dcHaName, entityUid ctx.mac 2, .int_data, "Device ID", .intv v, false, []⟩]⟩)

/-- The `DCChargerDevice.parse_state`: one `Charge State` entity, the byte at
offset 2 mapped through `CHARGING_STATE.get`. -/
def dcParseState (ctx : DeviceCtx) (st : DecState) (bs : List Nat) : Option ParseOut :=
  (bytes_to_int bs 2 1).map (fun code =>
    ⟨st, true,
      [⟨1, dcHaName, entityUid ctx.mac 25, .string_data, "Charge State",
        .ostrv (CHARGING_STATE code), false, []⟩]⟩)

/-- The `DCChargerDevice.parse_battery_type`: caches
`BATTERY_TYPE.get(bytes_to_int(bs, 3, 2))`; emits no entities. -/
def dcParseBatteryType (st : DecState) (bs : List Nat) : Option ParseOut :=
  (bytes_to_int bs 3 2).map (fun code =>
    ⟨{ st with batteryType := BATTERY_TYPE code }, true, []⟩)

/-- The `DCChargerDevice.parse_charging_info`: the 22 charging-info entities.
The source performs its `bytes_to_int` extractions sequentially and raises
out of the parse when a read window exceeds the buffer; every window lies
within the first 63 bytes, so the single guard `63 ≤ bs.length` (the widest
window, offset 59 length 4) is equivalent to the sequence of per-read
checks. -/
def dcParseChargingInfo (ctx : DeviceCtx) (st : DecState) (bs : List Nat) : Option ParseOut :=
  if 63 ≤ bs.length then
    some ⟨st, true,
      [ ⟨2, "Main Battery", entityUid ctx.mac 3, .percentage, "Battery Percent",
          .intv (beNat bs 3 2), false, []⟩,
        ⟨2, "Main Battery", entityUid ctx.mac 4, .voltage_sensor, "Battery Voltage",
          .fltv (beNat bs 5 2) 10, false, []⟩,
        ⟨1, dcHaName, entityUid ctx.mac 5, .current_sensor, "Combined Charge Current",
          .fltv (beNat bs 7 2) 100, true,
          [("model", some st.model), ("battery_type", st.batteryType)]⟩,
        ⟨1, dcHaName, entityUid ctx.mac 6, .temperature_sensor, "Controller Temperature",
          .intv (beNat bs 9 1), false, []⟩,
        ⟨2, "Main Battery", entityUid ctx.mac 7, .temperature_sensor, "Battery Temperature",
          .intv (beNat bs 10 1), false, []⟩,
        ⟨3, "Alternator", entityUid ctx.mac 8, .voltage_sensor, "Alternator Voltage",
          .fltv (beNat bs 11 2) 10, false, []⟩,
        ⟨3, "Alternator", entityUid ctx.mac 9, .current_sensor, "Alternator Current",
          .fltv (beNat bs 13 2) 100, false, []⟩,
        ⟨3, "Alternator", entityUid ctx.mac 10, .power_sensor, "Alternator Power",
          .intv (beNat bs 15 2), false, []⟩,
        ⟨4, "Solar", entityUid ctx.mac 11, .voltage_sensor, "Solar Voltage",
          .fltv (beNat bs 17 2) 10, false, []⟩,
        ⟨4, "Solar", entityUid ctx.mac 12, .current_sensor, "Solar Current",
          .fltv (beNat bs 19 2) 100, false, []⟩,
        ⟨4, "Solar", entityUid ctx.mac 13, .power_sensor, "Solar Power",
          .intv (beNat bs 21 2), false, []⟩,
        ⟨1, dcHaName, entityUid ctx.mac 14, .voltage_sensor, "Batt Min Voltage Today",
          .fltv (beNat bs 25 2) 10, false, []⟩,
        ⟨1, dcHaName, entityUid ctx.mac 15, .voltage_sensor, "Batt Max Voltage Today",
          .fltv (beNat bs 27 2) 10, false, []⟩,
        ⟨1, dcHaName, entityUid ctx.mac 16, .current_sensor, "Batt Max Current Today",
          .fltv (beNat bs 29 2) 100, false, []⟩,
        ⟨1, dcHaName, entityUid ctx.mac 17, .power_sensor, "Batt Charging Power Today",
          .intv (beNat bs 33 2), false, []⟩,
        ⟨1, dcHaName, entityUid ctx.mac 18, .amp_hours_sensor, "Charging Amp Hours Today",
          .intv (beNat bs 37 2), false, []⟩,
        ⟨1, dcHaName, entityUid ctx.mac 19, .energy_storage, "Power Generation Today",
          .intv (beNat bs 41 2), false, []⟩,
        ⟨1, dcHaName, entityUid ctx.mac 20, .int_data, "Total Working Days",
          .intv (beNat bs 45 2), false, []⟩,
        ⟨1, dcHaName, entityUid ctx.mac 21, .int_data, "Count Battery Overdischarged",
          .intv (beNat bs 47 2), false, []⟩,
        ⟨1, dcHaName, entityUid ctx.mac 22, .int_data, "Count Battery Fully Charged",
          .intv (beNat bs 49 2), false, []⟩,
        ⟨1, dcHaName, entityUid ctx.mac 23, .amp_hours_sensor, "Total Battery AH Accumulated",
          .intv (beNat bs 51 4), false, []⟩,
        ⟨1, dcHaName, entityUid ctx.mac 24, .energy_storage, "Power Generation Total",
          .intv (beNat bs 59 4), false, []⟩ ]⟩
  else none

/-! ## Inverter decoder (`renogy/device_inverter.py`) -/

/-- The `ha_device_name` of `InverterDevice`. -/
def invHaName : String := "Renogy Inverter"

/-- The `InverterDevice.parse_inverter_model`: caches
`bs[3:19].decode("utf-8").rstrip("\x00")` as the model. -/
def invParseModel (st : DecState) (bs : List Nat) : Option ParseOut :=
  (utf8Decode ((bs.drop 3).take 16)).map
    (fun cs => ⟨{ st with model := ⟨pyRstripNul cs⟩ }, true, []⟩)

/-- The `InverterDevice.parse_device_id`: one `Device ID` entity from the
2-byte value at offset 3. -/
def invParseDeviceId (ctx : DeviceCtx) (st : DecState) (bs : List Nat) : Option ParseOut :=
  (bytes_to_int bs 3 2).map (fun v =>
    ⟨st, true,
      [⟨1, invHaName, entityUid ctx.mac 2, .int_data, "Device ID", .intv v, false, []⟩]⟩)

/-- The `InverterDevice.parse_inverter_stats`: 8 entities; all read windows lie
within the first 23 bytes (widest: offset 21 length 2), so the single guard
is equivalent to the sequential per-read range checks of the source. -/
def invParseStats (ctx : DeviceCtx) (st : DecState) (bs : List Nat) : Option ParseOut :=
  if 23 ≤ bs.length then
    some ⟨st, true,
      [ ⟨1, invHaName, entityUid ctx.mac 3, .voltage_sensor, "Input Voltage",
          .fltv (beNat bs 3 2) 10, false, []⟩,
        ⟨1, invHaName, entityUid ctx.mac 4, .current_sensor, "Input Current",
          .fltv (beNat bs 5 2) 100, false, []⟩,
        ⟨1, invHaName, entityUid ctx.mac 5, .voltage_sensor, "Output Voltage",
          .fltv (beNat bs 7 2) 10, false, []⟩,
        ⟨1, invHaName, entityUid ctx.mac 6, .current_sensor, "Output Current",
          .fltv (beNat bs 9 2) 100, true, [("model", some st.model)]⟩,
        ⟨1, invHaName, entityUid ctx.mac 7, .int_data, "Output Frequency",
          .fltv (beNat bs 11 2) 100, false, []⟩,
        ⟨2, "Main Battery", entityUid ctx.mac 8, .voltage_sensor, "Battery Voltage",
          .fltv (beNat bs 13 2) 10, false, []⟩,
        ⟨1, invHaName, entityUid ctx.mac 9, .temperature_sensor, "Inverter Temperature",
          .fltv (beNat bs 15 2) 10, false, []⟩,
        ⟨1, invHaName, entityUid ctx.mac 10, .int_data, "Input Frequency",
          .fltv (beNat bs 21 2) 100, false, []⟩ ]⟩
  else none

/-- The `InverterDevice.parse_load_info`: 4 entities; all read windows lie within
the first 15 bytes (widest: offset 13 length 2). -/
def invParseLoadInfo (ctx : DeviceCtx) (st : DecState) (bs : List Nat) : Option ParseOut :=
  if 15 ≤ bs.length then
    some ⟨st, true,
      [ ⟨1, invHaName, entityUid ctx.mac 18, .current_sensor, "Load Current",
          .fltv (beNat bs 3 2) 10, false, []⟩,
        ⟨1, invHaName, entityUid ctx.mac 19, .power_sensor, "Load Active Power",
          .intv (beNat bs 5 2), false, []⟩,
        ⟨1, invHaName, entityUid ctx.mac 20, .power_sensor, "Load Apparent Power",
          .intv (beNat bs 7 2), false, []⟩,
        ⟨1, invHaName, entityUid ctx.mac 22, .percentage, "Load Percentage",
          .intv (beNat bs 13 2), false, []⟩ ]⟩
  else none

/-! ## Shunt decoder (`renogy/device_shunt.py`) -/

/-- The `ha_device_name` of `ShuntDevice` and `TestDevice`. -/
def shuntHaName : String := "Renogy Battery"

/-- The `ShuntDevice.parse_section`: a single-section decoder that accepts only
the first parse with at least 110 bytes at section index 0 and latches
`first_parse` off; every other call is `valid=false` with no state change.
Within the valid branch every read window lies inside the checked 110
bytes, so no extraction can fail. -/
def shuntParseSection (ctx : DeviceCtx) (st : DecState) (bs : List Nat) (i : Nat) :
    Option ParseOut :=
  if i = 0 ∧ st.firstParse ∧ 110 ≤ bs.length then
    some ⟨{ st with firstParse := false }, true,
      [ ⟨1, shuntHaName, entityUid ctx.mac 1, .percentage, "Main Battery Percent",
          .fltv (beNat bs 34 2) 10, true, []⟩,
        ⟨1, shuntHaName, entityUid ctx.mac 2, .voltage_sensor, "Main Battery Voltage",
          .fltv (beNat bs 25 3) 1000, false, []⟩,
        ⟨2, "Starter Battery", entityUid ctx.mac 3, .voltage_sensor, "Starter Battery Voltage",
          .fltv (beNat bs 30 2) 1000, false, []⟩,
        ⟨1, shuntHaName, entityUid ctx.mac 4, .current_sensor, "Charge Amps",
          .fltv (beSigned bs 21 3) 1000, false, []⟩,
        ⟨1, shuntHaName, entityUid ctx.mac 5, .power_sensor, "Charge Watts",
          .fltv ((beNat bs 25 3 : Int) * beSigned bs 21 3) (1000 * 1000), false, []⟩,
        ⟨1, shuntHaName, entityUid ctx.mac 6, .temperature_sensor, "Main Battery Temperature",
          .fltv (beNat bs 66 2) 10, false, []⟩ ]⟩
  else some ⟨st, false, []⟩

/-! ## Test decoder (`renogy/device_test.py`) -/

/-- The `TestDevice.parse_section`: fixed entities, gated by the same
first-parse-only rule as the shunt but with no length requirement; the
Python float literals and the product `13.6 * 3.15` are modelled as exact
fractions. -/
def testParseSection (ctx : DeviceCtx) (st : DecState) (bs : List Nat) (i : Nat) :
    Option ParseOut :=
  if i = 0 ∧ st.firstParse then
    some ⟨{ st with firstParse := false }, true,
      [ ⟨1, shuntHaName, entityUid ctx.mac 1, .percentage, "Main Battery Percent",
          .fltv 852 10, true, [("model", some "SmartShunt300")]⟩,
        ⟨1, shuntHaName, entityUid ctx.mac 2, .voltage_sensor, "Main Battery Voltage",
          .fltv 136 10, false, []⟩,
        ⟨2, "Starter Battery", entityUid ctx.mac 3, .voltage_sensor, "Starter Battery Voltage",
          .fltv 126 10, false, []⟩,
        ⟨1, shuntHaName, entityUid ctx.mac 4, .current_sensor, "Charge Amps",
          .fltv 315 100, false, []⟩,
        ⟨1, shuntHaName, entityUid ctx.mac 5, .power_sensor, "Charge Watts",
          .fltv (136 * 315) (10 * 100), false, []⟩,
        ⟨1, shuntHaName, entityUid ctx.mac 6, .temperature_sensor, "Main Battery Temperature",
          .fltv 121 10, false, []⟩,
        ⟨1, shuntHaName, entityUid ctx.mac 7, .voltage_sensor, "Main Battery Voltage (Test)",
          .fltv 1245 100, false, [("test_attribute", some "test_value")]⟩ ]⟩
  else some ⟨st, false, []⟩

/-! ## Device families and `parse_section` dispatch -/

/-- The four device families of the repository. -/
inductive Family where
  | inverter
  | dcCharger
  | shunt
  | test
  deriving Repr, DecidableEq

/-- The `READ_OPERATION` per family (87 for the shunt, default 3 otherwise). -/
def READ_OPERATION : Family → Nat
  | .shunt => 87
  | _ => 3

/-- The `WRITE_SERVICE_UUID` per family (`none` models Python `None`; the shunt
never sets one, the test device uses the sentinel `"TEST"`). -/
def WRITE_SERVICE_UUID : Family → Option String
  | .inverter => some "0000ffd1-0000-1000-8000-00805f9b34fb"
  | .dcCharger => some "0000ffd1-0000-1000-8000-00805f9b34fb"
  | .shunt => none
  | .test => some "TEST"

/-- Number of entries of `self.sections` per family. -/
def numSections : Family → Nat
  | .inverter => 4
  | .dcCharger => 5
  | .shunt => 1
  | .test => 1

/-- The per-family `parse_section` dispatch (section index chains of the
`parse_section` methods; indices past the last section yield
`{"valid": False, "entities": []}`). -/
def parse_section (f : Family) (ctx : DeviceCtx) (st : DecState) (bs : List Nat) (i : Nat) :
    Option ParseOut :=
  match f with
  | .inverter =>
    if i = 0 then invParseModel st bs
    else if i = 1 then invParseDeviceId ctx st bs
    else if i = 2 then invParseStats ctx st bs
    else if i = 3 then invParseLoadInfo ctx st bs
    else some ⟨st, false, []⟩
  | .dcCharger =>
    if i = 0 then dcParseDeviceInfo st bs
    else if i = 1 then dcParseDeviceAddress ctx st bs
    else if i = 2 then dcParseState ctx st bs
    else if i = 3 then dcParseBatteryType st bs
    else if i = 4 then dcParseChargingInfo ctx st bs
    else some ⟨st, false, []⟩
  | .shunt => shuntParseSection ctx st bs i
  | .test => testParseSection ctx st bs i

/-! ## Device session state machine (`renogy/device.py`) -/

/-- Mutable session state touched by the notification callback: the section
cursor, the accumulated `ret_dev_data`, the notification event flag, and the
decoder state cached on the session instance. -/
structure SessionState where
  sectionIndex : Nat
  retDevData : List RenogyDeviceData
  eventSet : Bool
  dec : DecState
  deriving Repr, DecidableEq

/-- Session state of a freshly constructed device instance. -/
def initSession : SessionState :=
  { sectionIndex := 0, retDevData := [], eventSet := false, dec := initDecState }

/-- The `RenogyDevice.notification_callback`: reads the operation byte at offset
1 (a `bytes_to_int` that raises on a payload shorter than 2 bytes, leaving
the state untouched); on a matching operation code it routes the payload to
`parse_section` at the current section index and, when the result is valid,
extends `ret_dev_data` and sets the event; any other outcome (mismatched
code, invalid parse, or an exception inside the parse before any state
write) leaves the recorded fields unchanged. -/
def notificationCallback (f : Family) (ctx : DeviceCtx) (st : SessionState)
    (data : List Nat) : SessionState :=
  match bytes_to_int data 1 1 with
  | none => st
  | some op =>
    if op = READ_OPERATION f then
      match parse_section f ctx st.dec data st.sectionIndex with
      | none => st
      | some out =>
        if out.valid then
          { st with dec := out.st, retDevData := st.retDevData ++ out.entities,
                    eventSet := true }
        else { st with dec := out.st }
    else st

/-- One send attempt of `RenogyDevice.execute`'s inner loop: the event is
cleared (`read_section`), the read request is written when the session has a
write characteristic, and the notifications arriving during the bounded wait
are run through the callback in order. -/
def runAttempt (f : Family) (ctx : DeviceCtx) (arrivals : List (List Nat))
    (st : SessionState) : SessionState :=
  arrivals.foldl (notificationCallback f ctx) { st with eventSet := false }

/-- Error raised out of the protocol loop (`_raise_communication_error` /
`_raise_connection_error`). -/
inductive SessionError where
  | communicationError
  | connectionError
  deriving Repr, DecidableEq

/-- The `while self.section_index < len(self.sections)` loop of
`RenogyDevice.execute`, with the transport abstracted as an oracle `arr`
giving the notifications delivered during the wait that follows the n-th
attempt (counted globally).  Returns the final session state, the section
index of every performed write (`sends`), the section index of every attempt
(`attempts`), and the error raised, if any.  At most 2 attempts are made per
section (`countsent < 2`); a section with no event after both attempts
raises `DeviceCommunicationError`. -/
def execLoop (f : Family) (ctx : DeviceCtx) (arr : Nat → List (List Nat)) :
    Nat → Nat → SessionState → SessionState × List Nat × List Nat × Option SessionError
  | 0, _, st => (st, [], [], none)
  | n+1, attemptCount, st =>
    let idx := st.sectionIndex
    let writesHere := if (WRITE_SERVICE_UUID f).isSome then [idx] else []
    let st1 := runAttempt f ctx (arr attemptCount) st
    if st1.eventSet then
      let r := execLoop f ctx arr n (attemptCount + 1) { st1 with sectionIndex := idx + 1 }
      (r.1, writesHere ++ r.2.1, idx :: r.2.2.1, r.2.2.2)
    else
      let st2 := runAttempt f ctx (arr (attemptCount + 1)) st1
      if st2.eventSet then
        let r := execLoop f ctx arr n (attemptCount + 2) { st2 with sectionIndex := idx + 1 }
        (r.1, writesHere ++ writesHere ++ r.2.1, idx :: idx :: r.2.2.1, r.2.2.2)
      else
        (st2, writesHere ++ writesHere, [idx, idx], some .communicationError)

/-- Ordered-dict key update (`dev.attributes[k] = v`). -/
def dictSet (k : String) (v : Option String) :
    List (String × Option String) → List (String × Option String)
  | [] => [(k, v)]
  | (k', v') :: rest => if k' = k then (k, v) :: rest else (k', v') :: dictSet k v rest

/-- The `RenogyDevice.add_devices`: every measurement marked main receives the
controller's address, the trimmed advertised device name and the configured
display name as extra attributes. -/
def add_devices (ctx : DeviceCtx) (l : List RenogyDeviceData) : List RenogyDeviceData :=
  l.map (fun d =>
    if d.is_main then
      { d with attributes :=
          (dictSet "config_name" (some ctx.cfgName)
            (dictSet "device_name" (some (pyStripS ctx.deviceName))
              (dictSet "mac" (some ctx.mac) d.attributes))) }
    else d)

/-- Outcome of `RenogyDevice.execute`: the write and attempt traces, the
error raised inside the protocol loop (always caught by the surrounding
`except`, which turns it into an empty result), and the returned measurement
list. -/
structure ExecOutcome where
  sends : List Nat
  attempts : List Nat
  raised : Option SessionError
  result : List RenogyDeviceData
  deriving Repr, DecidableEq

/-- The fixed dummy payload `b"ab232"` fed to the decoder in simulation
mode. -/
def simPayload : List Nat := [97, 98, 50, 51, 50]

/-- The `RenogyDevice.execute` over an abstract transport.  For a session whose
write characteristic is the sentinel `"TEST"` the BLE path is bypassed and
the decoder is called once with the dummy payload at index 0; otherwise the
connection is established (connection failures are outside this model) and
the per-section attempt loop runs, any raised error being caught and turned
into an empty result.  On success `add_devices` post-processes the
accumulated list. -/
def execute (f : Family) (ctx : DeviceCtx) (arr : Nat → List (List Nat)) : ExecOutcome :=
  if WRITE_SERVICE_UUID f = some "TEST" then
    match parse_section f ctx initSession.dec simPayload 0 with
    | none => ⟨[], [], none, []⟩
    | some out =>
      if out.valid then ⟨[], [], none, add_devices ctx out.entities⟩
      else ⟨[], [], none, add_devices ctx []⟩
  else
    let r := execLoop f ctx arr (numSections f) 0 initSession
    match r.2.2.2 with
    | some e => ⟨r.2.1, r.2.2.1, some e, []⟩
    | none => ⟨r.2.1, r.2.2.1, none, add_devices ctx r.1.retDevData⟩

/-! ## Whole-poll decode (one valid payload per section, in order) -/

/-- Run `parse_section` over consecutive section indices starting at `i`,
one payload per section, threading the decoder state and concatenating the
emitted entities; fails when a parse raises or reports invalid. -/
def decodeSections (f : Family) (ctx : DeviceCtx) :
    Nat → DecState → List (List Nat) → Option (DecState × List RenogyDeviceData)
  | _, st, [] => some (st, [])
  | i, st, p :: rest =>
    match parse_section f ctx st p i with
    | none => none
    | some out =>
      if out.valid then
        (decodeSections f ctx (i + 1) out.st rest).map
          (fun r => (r.1, out.entities ++ r.2))
      else none

/-- A full decode of one payload per section in order, from a fresh session:
the measurement list a successful poll accumulates before `add_devices`. -/
def fullDecode (f : Family) (ctx : DeviceCtx) (ps : List (List Nat)) :
    Option (List RenogyDeviceData) :=
  if ps.length = numSections f then
    (decodeSections f ctx 0 initDecState ps).map (fun r => r.2)
  else none

/-! ## Device registry / dispatch (`api.py`) -/

/-- Error raised out of `API.get_devices`. -/
inductive ApiError where
  | configEntryNotReady
  | apiConnectionError
  deriving Repr, DecidableEq

/-- Result of one `API.get_devices` call: either a raised error or the
device list. -/
inductive DispatchOutcome where
  | err : ApiError → DispatchOutcome
  | ok : List RenogyDeviceData → DispatchOutcome
  deriving Repr, DecidableEq

/-- Trace of one `API.get_devices` call: how many BLE address lookups were
made, which device sessions were constructed and executed, and the result
(either the device list or the raised error). -/
structure DispatchTrace where
  bleLookups : Nat
  sessionsRun : List Family
  outcome : DispatchOutcome
  deriving Repr, DecidableEq

/-- The `API.get_devices`: for any tag other than `"TestDevice"` the BLE address
is looked up first (raising `ConfigEntryNotReady` when it does not resolve);
then the four recognised tags construct and execute the matching session,
any other tag falls through with an empty device list; an empty list raises
`APIConnectionError`.  `runSession` abstracts `device_instance.execute`. -/
def get_devices (tag : String) (bleFound : Bool)
    (runSession : Family → List RenogyDeviceData) : DispatchTrace :=
  if tag ≠ "TestDevice" ∧ bleFound = false then
    ⟨1, [], .err .configEntryNotReady⟩
  else
    let lookups := if tag = "TestDevice" then 0 else 1
    let ran : List Family :=
      if tag = "Inverter" then [.inverter]
      else if tag = "DcDcCharger" then [.dcCharger]
      else if tag = "SmartShunt300" then [.shunt]
      else if tag = "TestDevice" then [.test]
      else []
    let devices := (ran.map runSession).flatten
    if devices.isEmpty then ⟨lookups, ran, .err .apiConnectionError⟩
    else ⟨lookups, ran, .ok devices⟩

/-! ## Concrete fixtures and derived definitions used by the verification -/

/-- A concrete session configuration (BLE address, advertised name,
configured display name). -/
def ctx0 : DeviceCtx := ⟨"AA:BB:CC:DD:EE:FF", "BT-TH-1234  ", "My Charger"⟩

/-- DC-DC charger section-0 response: model string `"RBC30D1S-G1"` padded
with spaces at bytes 3..18. -/
def s0 : List Nat := [255, 3, 32, 82, 66, 67, 51, 48, 68, 49, 83, 45, 71, 49, 32, 32, 32, 32, 32]

/-- DC-DC charger section-1 response: device address 97 at offset 4. -/
def s1 : List Nat := [255, 3, 2, 0, 97]

/-- DC-DC charger section-2 response: charge-state code 2 at offset 2. -/
def s2 : List Nat := [255, 3, 2, 0, 0]

/-- DC-DC charger section-3 response: battery-type code 4 at offsets 3..4. -/
def s3 : List Nat := [255, 3, 2, 0, 4]

/-- DC-DC charger section-4 response: battery percent 85 at offsets 3..4,
all other fields zero. -/
def s4 : List Nat := [255, 3, 60, 0, 85] ++ List.replicate 60 0

/-- Transport oracle delivering one matching DC-DC charger response per
attempt. -/
def arrDC : Nat → List (List Nat) := fun n =>
  if n = 0 then [s0] else if n = 1 then [s1] else if n = 2 then [s2]
  else if n = 3 then [s3] else if n = 4 then [s4] else []

/-- Feed two payloads in sequence to a family's decoder at section index 0,
starting from a fresh session, returning both `valid` flags. -/
def decodeTwice (f : Family) (ctx : DeviceCtx) (p1 p2 : List Nat) : Option (Bool × Bool) :=
  match parse_section f ctx initDecState p1 0 with
  | none => none
  | some o1 =>
    match parse_section f ctx o1.st p2 0 with
    | none => none
    | some o2 => some (o1.valid, o2.valid)

/-- The (unique id, is-main) projection of a measurement list. -/
def shapeOf (l : List RenogyDeviceData) : List (String × Bool) :=
  l.map (fun d => (d.device_unique_id, d.is_main))

/-- Expected (unique id, is-main) shape of a full DC-DC charger decode. -/
def dcShape (mac : String) : List (String × Bool) :=
  [(entityUid mac 2, false), (entityUid mac 25, false), (entityUid mac 3, false),
   (entityUid mac 4, false), (entityUid mac 5, true), (entityUid mac 6, false),
   (entityUid mac 7, false), (entityUid mac 8, false), (entityUid mac 9, false),
   (entityUid mac 10, false), (entityUid mac 11, false), (entityUid mac 12, false),
   (entityUid mac 13, false), (entityUid mac 14, false), (entityUid mac 15, false),
   (entityUid mac 16, false), (entityUid mac 17, false), (entityUid mac 18, false),
   (entityUid mac 19, false), (entityUid mac 20, false), (entityUid mac 21, false),
   (entityUid mac 22, false), (entityUid mac 23, false), (entityUid mac 24, false)]

/-- Expected (unique id, is-main) shape of a full inverter decode. -/
def invShape (mac : String) : List (String × Bool) :=
  [(entityUid mac 2, false), (entityUid mac 3, false), (entityUid mac 4, false),
   (entityUid mac 5, false), (entityUid mac 6, true), (entityUid mac 7, false),
   (entityUid mac 8, false), (entityUid mac 9, false), (entityUid mac 10, false),
   (entityUid mac 18, false), (entityUid mac 19, false), (entityUid mac 20, false),
   (entityUid mac 22, false)]

/-- Expected (unique id, is-main) shape of a full shunt decode. -/
def shuntShape (mac : String) : List (String × Bool) :=
  [(entityUid mac 1, true), (entityUid mac 2, false), (entityUid mac 3, false),
   (entityUid mac 4, false), (entityUid mac 5, false), (entityUid mac 6, false)]

/-- Expected (unique id, is-main) shape of a full test-device decode. -/
def testShape (mac : String) : List (String × Bool) :=
  [(entityUid mac 1, true), (entityUid mac 2, false), (entityUid mac 3, false),
   (entityUid mac 4, false), (entityUid mac 5, false), (entityUid mac 6, false),
   (entityUid mac 7, false)]

/-- One valid payload per DC-DC charger section. -/
def dcPayloads : List (List Nat) := [s0, s1, s2, s3, s4]

/-- One valid payload per inverter section (long enough for every guard). -/
def invPayloads : List (List Nat) :=
  [List.replicate 23 1, List.replicate 23 1, List.replicate 23 1, List.replicate 23 1]

/-- One valid payload for the shunt's single section. -/
def shuntPayloads : List (List Nat) := [List.replicate 110 0]

/-- One payload for the test device's single section (content is ignored). -/
def testPayloads : List (List Nat) := [[]]

/-- The measurement list of a successful demonstration DC-DC charger
decode. -/
def dcDemo : List RenogyDeviceData := (fullDecode .dcCharger ctx0 dcPayloads).getD []

/-- The measurement list of a successful demonstration inverter decode. -/
def invDemo : List RenogyDeviceData := (fullDecode .inverter ctx0 invPayloads).getD []

/-- The measurement list of a successful demonstration shunt decode. -/
def shuntDemo : List RenogyDeviceData := (fullDecode .shunt ctx0 shuntPayloads).getD []

/-- The measurement list of a successful demonstration test-device decode. -/
def testDemo : List RenogyDeviceData := (fullDecode .test ctx0 testPayloads).getD []

/-- A second DC-DC charger section-0 response, with a different model
string ("XYZ"). -/
def s0b : List Nat :=
  [255, 3, 32, 88, 89, 90, 32, 32, 32, 32, 32, 32, 32, 32, 32, 32, 32, 32, 32]

/-- A second battery-type response (code 2, "sealed"). -/
def s3b : List Nat := [255, 3, 2, 0, 2]

/-- A second charging-info response with different field values. -/
def s4b : List Nat := [255, 3, 60, 0, 42] ++ List.replicate 60 1

/-- A second poll's DC-DC charger payload set, differing from `dcPayloads`
in content. -/
def dcPayloadsB : List (List Nat) := [s0b, s1, s2, s3b, s4b]

/-- The measurement list decoded from the second poll's payloads. -/
def dcDemoB : List RenogyDeviceData := (fullDecode .dcCharger ctx0 dcPayloadsB).getD []

/-- A non-empty stand-in for a session's measurement list, used as a
dispatch oracle. -/
def dummyDev : RenogyDeviceData :=
  ⟨1, "X", "uid", .int_data, "N", .intv 0, false, []⟩

/-- The (unique id, is-main) shape of a successful full decode, per
family. -/
def familyShape : Family → String → List (String × Bool)
  | .inverter => invShape
  | .dcCharger => dcShape
  | .shunt => shuntShape
  | .test => testShape

/-- A second poll's shunt payload, differing from `shuntPayloads` in
content. -/
def shuntPayloadsB : List (List Nat) := [List.replicate 110 9]

/-- The measurement list decoded from the second poll's shunt payload. -/
def shuntDemoB : List RenogyDeviceData := (fullDecode .shunt ctx0 shuntPayloadsB).getD []

/-! ## Helper lemmas -/

/-- A notification whose operation byte does not match the expected
read-response code leaves the session state untouched. -/
theorem notificationCallback_silent (f : Family) (ctx : DeviceCtx) (st : SessionState)
    (data : List Nat) (h : bytes_to_int data 1 1 ≠ some (READ_OPERATION f)) :
    notificationCallback f ctx st data = st := by
  unfold notificationCallback
  cases hb : bytes_to_int data 1 1 with
  | none => simp
  | some op =>
    have hne : op ≠ READ_OPERATION f := by
      intro e
      exact h (by rw [hb, e])
    simp [hne]

/-- Folding the callback over non-matching notifications is the identity. -/
theorem foldl_callback_silent (f : Family) (ctx : DeviceCtx) :
    ∀ (l : List (List Nat)) (s : SessionState),
    (∀ p ∈ l, bytes_to_int p 1 1 ≠ some (READ_OPERATION f)) →
    l.foldl (notificationCallback f ctx) s = s := by
  intro l
  induction l with
  | nil => intro s _; rfl
  | cons p t ih =>
    intro s h
    rw [List.foldl_cons, notificationCallback_silent f ctx s p (h p (by simp))]
    exact ih s (fun q hq => h q (by simp [hq]))

/-- An attempt during which only non-matching notifications arrive just
clears the event flag. -/
theorem runAttempt_silent (f : Family) (ctx : DeviceCtx) (arrivals : List (List Nat))
    (st : SessionState)
    (h : ∀ p ∈ arrivals, bytes_to_int p 1 1 ≠ some (READ_OPERATION f)) :
    runAttempt f ctx arrivals st = { st with eventSet := false } :=
  foldl_callback_silent f ctx arrivals { st with eventSet := false } h

/-- The `parse_device_info` of the DC-DC charger reports valid whenever it
returns. -/
theorem dcParseDeviceInfo_valid {st : DecState} {bs : List Nat} {out : ParseOut}
    (h : dcParseDeviceInfo st bs = some out) : out.valid = true := by
  rw [dcParseDeviceInfo, Option.map_eq_some'] at h
  obtain ⟨cs, _, hout⟩ := h
  rw [← hout]

/-- The `parse_device_address` of the DC-DC charger reports valid whenever it
returns. -/
theorem dcParseDeviceAddress_valid {ctx : DeviceCtx} {st : DecState} {bs : List Nat}
    {out : ParseOut} (h : dcParseDeviceAddress ctx st bs = some out) : out.valid = true := by
  rw [dcParseDeviceAddress, Option.map_eq_some'] at h
  obtain ⟨v, _, hout⟩ := h
  rw [← hout]

/-- The `parse_state` of the DC-DC charger reports valid whenever it returns. -/
theorem dcParseState_valid {ctx : DeviceCtx} {st : DecState} {bs : List Nat}
    {out : ParseOut} (h : dcParseState ctx st bs = some out) : out.valid = true := by
  rw [dcParseState, Option.map_eq_some'] at h
  obtain ⟨v, _, hout⟩ := h
  rw [← hout]

/-- The `parse_battery_type` of the DC-DC charger reports valid whenever it
returns. -/
theorem dcParseBatteryType_valid {st : DecState} {bs : List Nat}
    {out : ParseOut} (h : dcParseBatteryType st bs = some out) : out.valid = true := by
  rw [dcParseBatteryType, Option.map_eq_some'] at h
  obtain ⟨v, _, hout⟩ := h
  rw [← hout]

/-- The `parse_charging_info` of the DC-DC charger reports valid whenever it
returns. -/
theorem dcParseChargingInfo_valid {ctx : DeviceCtx} {st : DecState} {bs : List Nat}
    {out : ParseOut} (h : dcParseChargingInfo ctx st bs = some out) : out.valid = true := by
  unfold dcParseChargingInfo at h
  split at h
  · cases h
    rfl
  · simp at h

/-- The `parse_inverter_model` reports valid whenever it returns. -/
theorem invParseModel_valid {st : DecState} {bs : List Nat} {out : ParseOut}
    (h : invParseModel st bs = some out) : out.valid = true := by
  rw [invParseModel, Option.map_eq_some'] at h
  obtain ⟨cs, _, hout⟩ := h
  rw [← hout]

/-- The `parse_device_id` of the inverter reports valid whenever it returns. -/
theorem invParseDeviceId_valid {ctx : DeviceCtx} {st : DecState} {bs : List Nat}
    {out : ParseOut} (h : invParseDeviceId ctx st bs = some out) : out.valid = true := by
  rw [invParseDeviceId, Option.map_eq_some'] at h
  obtain ⟨v, _, hout⟩ := h
  rw [← hout]

/-- The `parse_inverter_stats` reports valid whenever it returns. -/
theorem invParseStats_valid {ctx : DeviceCtx} {st : DecState} {bs : List Nat}
    {out : ParseOut} (h : invParseStats ctx st bs = some out) : out.valid = true := by
  unfold invParseStats at h
  split at h
  · cases h
    rfl
  · simp at h

/-- The `parse_load_info` of the inverter reports valid whenever it returns. -/
theorem invParseLoadInfo_valid {ctx : DeviceCtx} {st : DecState} {bs : List Nat}
    {out : ParseOut} (h : invParseLoadInfo ctx st bs = some out) : out.valid = true := by
  unfold invParseLoadInfo at h
  split at h
  · cases h
    rfl
  · simp at h

/-- A `parse_section` call that reports `valid=false` is the fallback
result: unchanged decoder state and no entities (every real section parser
of every family reports `valid=true` whenever it returns at all). -/
theorem parse_section_invalid (f : Family) (ctx : DeviceCtx) (st : DecState)
    (bs : List Nat) (i : Nat) (out : ParseOut)
    (hp : parse_section f ctx st bs i = some out) (hv : out.valid = false) :
    out = ⟨st, false, []⟩ := by
  cases f
  case inverter =>
    simp only [parse_section] at hp
    split at hp
    · exact absurd (invParseModel_valid hp) (by simp [hv])
    · split at hp
      · exact absurd (invParseDeviceId_valid hp) (by simp [hv])
      · split at hp
        · exact absurd (invParseStats_valid hp) (by simp [hv])
        · split at hp
          · exact absurd (invParseLoadInfo_valid hp) (by simp [hv])
          · simp only [Option.some.injEq] at hp
            exact hp.symm
  case dcCharger =>
    simp only [parse_section] at hp
    split at hp
    · exact absurd (dcParseDeviceInfo_valid hp) (by simp [hv])
    · split at hp
      · exact absurd (dcParseDeviceAddress_valid hp) (by simp [hv])
      · split at hp
        · exact absurd (dcParseState_valid hp) (by simp [hv])
        · split at hp
          · exact absurd (dcParseBatteryType_valid hp) (by simp [hv])
          · split at hp
            · exact absurd (dcParseChargingInfo_valid hp) (by simp [hv])
            · simp only [Option.some.injEq] at hp
              exact hp.symm
  case shunt =>
    simp only [parse_section] at hp
    unfold shuntParseSection at hp
    split at hp
    · cases hp
      simp at hv
    · simp only [Option.some.injEq] at hp
      exact hp.symm
  case test =>
    simp only [parse_section] at hp
    unfold testParseSection at hp
    split at hp
    · cases hp
      simp at hv
    · simp only [Option.some.injEq] at hp
      exact hp.symm

/-! ## Claim theorems -/

/-- C2: for every device_id (u8), function (u8), register (u16) and
word_count (u16), the built read request is exactly the 8-byte frame
[device_id, function, register_hi, register_lo, word_count_hi,
word_count_lo, crc_lo, crc_hi], and recomputing CRC-16/Modbus over its
first 6 bytes yields exactly the appended (lo, hi) pair. -/
theorem c2_read_request_layout_and_crc :
    ∀ d fn r w : Nat, d < 256 → fn < 256 → r < 65536 → w < 65536 →
    create_generic_read_request d fn r w =
      [d, fn, r / 256, r % 256, w / 256, w % 256,
       (crc16_modbus [d, fn, r / 256, r % 256, w / 256, w % 256]).1,
       (crc16_modbus [d, fn, r / 256, r % 256, w / 256, w % 256]).2]
    ∧ crc16_modbus ((create_generic_read_request d fn r w).take 6) =
        ((create_generic_read_request d fn r w).getD 6 0,
         (create_generic_read_request d fn r w).getD 7 0) := by
  intro d fn r w _ _ hr hw
  have hr' : r / 256 % 256 = r / 256 :=
    Nat.mod_eq_of_lt (Nat.div_lt_of_lt_mul (by omega))
  have hw' : w / 256 % 256 = w / 256 :=
    Nat.mod_eq_of_lt (Nat.div_lt_of_lt_mul (by omega))
  constructor
  · simp [create_generic_read_request, int_to_bytes, hr', hw']
  · simp [create_generic_read_request, int_to_bytes, hr', hw', List.take, List.getD]

/-- Witness for C2 at the spec's known vector (device 255, function 3,
register 256, word count 110); the appended checksum evaluates to
(208, 4). -/
theorem c2_witness :
    (255 < 256 ∧ 3 < 256 ∧ 256 < 65536 ∧ 110 < 65536)
    ∧ (create_generic_read_request 255 3 256 110 =
        [255, 3, 256 / 256, 256 % 256, 110 / 256, 110 % 256,
         (crc16_modbus [255, 3, 256 / 256, 256 % 256, 110 / 256, 110 % 256]).1,
         (crc16_modbus [255, 3, 256 / 256, 256 % 256, 110 / 256, 110 % 256]).2]
       ∧ crc16_modbus ((create_generic_read_request 255 3 256 110).take 6) =
          ((create_generic_read_request 255 3 256 110).getD 6 0,
           (create_generic_read_request 255 3 256 110).getD 7 0))
    ∧ create_generic_read_request 255 3 256 110 = [255, 3, 1, 0, 0, 110, 208, 4] :=
  ⟨⟨by decide, by decide, by decide, by decide⟩,
   c2_read_request_layout_and_crc 255 3 256 110 (by decide) (by decide) (by decide) (by decide),
   by decide⟩

/-- C3: for the DC-DC charger session run over fixed byte buffers for its
5 sections, the returned list contains a primary "Combined Charge Current"
measurement whose attributes carry the model parsed from section 0 (bytes
3..18, UTF-8, stripped) and the battery type parsed from the battery-type
section, and a "Battery Percent" measurement equal to the unsigned
big-endian 2-byte value at offset 3 with no scaling. -/
theorem c3_dc_charger_happy_path :
    (execute .dcCharger ctx0 arrDC).raised = none
    ∧ (⟨1, dcHaName, entityUid ctx0.mac 5, .current_sensor, "Combined Charge Current",
        .fltv (beNat s4 7 2) 100, true,
        [("model", some "RBC30D1S-G1"), ("battery_type", some "lithium"),
         ("mac", some "AA:BB:CC:DD:EE:FF"), ("device_name", some "BT-TH-1234"),
         ("config_name", some "My Charger")]⟩ : RenogyDeviceData)
        ∈ (execute .dcCharger ctx0 arrDC).result
    ∧ (⟨2, "Main Battery", entityUid ctx0.mac 3, .percentage, "Battery Percent",
        .intv (beNat s4 3 2), false, []⟩ : RenogyDeviceData)
        ∈ (execute .dcCharger ctx0 arrDC).result
    ∧ beNat s4 3 2 = 85
    ∧ utf8Decode ((s0.drop 3).take 16) = some "RBC30D1S-G1     ".data
    ∧ pyStrip "RBC30D1S-G1     ".data = "RBC30D1S-G1".data
    ∧ BATTERY_TYPE (beNat s3 3 2) = some "lithium" :=
  ⟨by decide, by decide, by decide, by decide, by decide, by decide, by decide⟩

/-- C4 counterexample: a first shunt payload shorter than 110 bytes is
rejected (valid=false), and it leaves the first-parse latch set so the
second payload can even be accepted — the claimed (true, false) pattern
fails on payload content. -/
theorem c4_counterexample_short_first_shunt_payload :
    decodeTwice .shunt ctx0 [] (List.replicate 110 0) = some (false, true) := by decide

/-- C4 (amended): for the test decoder any pair of payloads at section
index 0 decodes as valid=true then valid=false; for the shunt decoder the
same holds whenever the first payload is at least 110 bytes long. -/
theorem c4_first_valid_second_invalid :
    ∀ (ctx : DeviceCtx) (p1 p2 : List Nat),
    decodeTwice .test ctx p1 p2 = some (true, false)
    ∧ (110 ≤ p1.length → decodeTwice .shunt ctx p1 p2 = some (true, false)) := by
  intro ctx p1 p2
  constructor
  · simp [decodeTwice, parse_section, testParseSection, initDecState]
  · intro h
    simp [decodeTwice, parse_section, shuntParseSection, initDecState, h]

/-- Witness for C4 at concrete payloads (a 110-byte first shunt payload and
arbitrary test payloads). -/
theorem c4_witness :
    110 ≤ (List.replicate 110 0 : List Nat).length
    ∧ decodeTwice .shunt ctx0 (List.replicate 110 0) [] = some (true, false)
    ∧ decodeTwice .test ctx0 [1, 2] [3] = some (true, false) :=
  ⟨by decide,
   (c4_first_valid_second_invalid ctx0 (List.replicate 110 0) []).2 (by decide),
   (c4_first_valid_second_invalid ctx0 [1, 2] [3]).1⟩

/-- C6 counterexample: the charging-state table has no entry for code 7, so
it does not cover every code from 0 through 8; the state section then emits
a "Charge State" measurement whose value is None. -/
theorem c6_counterexample_charging_state_7_missing :
    CHARGING_STATE 7 = none
    ∧ dcParseState ctx0 initDecState [255, 3, 7] =
        some ⟨initDecState, true,
          [⟨1, dcHaName, entityUid ctx0.mac 25, .string_data, "Charge State",
            .ostrv none, false, []⟩]⟩ :=
  ⟨by decide, by decide⟩

/-- C6 (amended): the DC-DC charger state section maps the 1-byte code at
offset 2 through the 8-entry charging-state table {0:deactivated,
1:activated, 2:mppt, 3:equalizing, 4:boost, 5:floating, 6:current limiting,
8:alternator direct} — code 7 has no entry — to produce the "Charge State"
measurement, and the battery-type section maps its 2-byte code at offset 3
through {1:open, 2:sealed, 3:gel, 4:lithium, 5:custom}. -/
theorem c6_state_and_battery_tables :
    ∀ (ctx : DeviceCtx) (st : DecState) (bs : List Nat), 3 ≤ bs.length →
    parse_section .dcCharger ctx st bs 2 =
      some ⟨st, true,
        [⟨1, dcHaName, entityUid ctx.mac 25, .string_data, "Charge State",
          .ostrv (CHARGING_STATE (beNat bs 2 1)), false, []⟩]⟩
    ∧ (5 ≤ bs.length →
        parse_section .dcCharger ctx st bs 3 =
          some ⟨{ st with batteryType := BATTERY_TYPE (beNat bs 3 2) }, true, []⟩)
    ∧ (CHARGING_STATE 0 = some "deactivated" ∧ CHARGING_STATE 1 = some "activated"
       ∧ CHARGING_STATE 2 = some "mppt" ∧ CHARGING_STATE 3 = some "equalizing"
       ∧ CHARGING_STATE 4 = some "boost" ∧ CHARGING_STATE 5 = some "floating"
       ∧ CHARGING_STATE 6 = some "current limiting" ∧ CHARGING_STATE 7 = none
       ∧ CHARGING_STATE 8 = some "alternator direct")
    ∧ (BATTERY_TYPE 1 = some "open" ∧ BATTERY_TYPE 2 = some "sealed"
       ∧ BATTERY_TYPE 3 = some "gel" ∧ BATTERY_TYPE 4 = some "lithium"
       ∧ BATTERY_TYPE 5 = some "custom") := by
  intro ctx st bs h3
  refine ⟨?_, ?_, by decide, by decide⟩
  · have hg : 2 + 1 ≤ bs.length := h3
    simp [parse_section, dcParseState, bytes_to_int, hg]
  · intro h5
    have hg : 3 + 2 ≤ bs.length := h5
    simp [parse_section, dcParseBatteryType, bytes_to_int, hg]

/-- Witness for C6 at a concrete 5-byte state-section buffer with code 7
at offset 2 and battery code 4 at offsets 3..4. -/
theorem c6_witness :
    3 ≤ ([255, 3, 7, 0, 4] : List Nat).length
    ∧ parse_section .dcCharger ctx0 initDecState [255, 3, 7, 0, 4] 2 =
        some ⟨initDecState, true,
          [⟨1, dcHaName, entityUid ctx0.mac 25, .string_data, "Charge State",
            .ostrv (CHARGING_STATE (beNat [255, 3, 7, 0, 4] 2 1)), false, []⟩]⟩
    ∧ parse_section .dcCharger ctx0 initDecState [255, 3, 7, 0, 4] 3 =
        some ⟨{ initDecState with
                  batteryType := BATTERY_TYPE (beNat [255, 3, 7, 0, 4] 3 2) }, true, []⟩
    ∧ CHARGING_STATE (beNat [255, 3, 7, 0, 4] 2 1) = none :=
  ⟨by decide,
   (c6_state_and_battery_tables ctx0 initDecState [255, 3, 7, 0, 4] (by decide)).1,
   (c6_state_and_battery_tables ctx0 initDecState [255, 3, 7, 0, 4] (by decide)).2.1 (by decide),
   by decide⟩

/-- C10: a DC-DC charger battery-type code outside {1,2,3,4,5} decodes
without error, caching None as the battery type; a state-section code with
no charging-state entry yields a "Charge State" measurement whose value is
None rather than an error. -/
theorem c10_unknown_codes_map_to_none :
    ∀ (ctx : DeviceCtx) (st : DecState) (bs bs' : List Nat),
    (5 ≤ bs.length → beNat bs 3 2 ∉ ([1, 2, 3, 4, 5] : List Nat) →
      parse_section .dcCharger ctx st bs 3 =
        some ⟨{ st with batteryType := none }, true, []⟩)
    ∧ (3 ≤ bs'.length → CHARGING_STATE (beNat bs' 2 1) = none →
        parse_section .dcCharger ctx st bs' 2 =
          some ⟨st, true,
            [⟨1, dcHaName, entityUid ctx.mac 25, .string_data, "Charge State",
              .ostrv none, false, []⟩]⟩) := by
  intro ctx st bs bs'
  constructor
  · intro h5 hcode
    have hg : 3 + 2 ≤ bs.length := h5
    have hnone : BATTERY_TYPE (beNat bs 3 2) = none := by
      simp only [List.mem_cons, List.not_mem_nil, or_false] at hcode
      push_neg at hcode
      obtain ⟨h1, h2, h3', h4, h5'⟩ := hcode
      simp [BATTERY_TYPE, h1, h2, h3', h4, h5']
    simp [parse_section, dcParseBatteryType, bytes_to_int, hg, hnone]
  · intro h3 hnone
    have hg : 2 + 1 ≤ bs'.length := h3
    simp [parse_section, dcParseState, bytes_to_int, hg, hnone]

/-- Witness for C10 at concrete buffers: battery code 9 (unmapped) and
state code 7 (unmapped). -/
theorem c10_witness :
    (5 ≤ ([255, 3, 2, 0, 9] : List Nat).length
      ∧ beNat [255, 3, 2, 0, 9] 3 2 ∉ ([1, 2, 3, 4, 5] : List Nat)
      ∧ parse_section .dcCharger ctx0 initDecState [255, 3, 2, 0, 9] 3 =
          some ⟨{ initDecState with batteryType := none }, true, []⟩)
    ∧ (3 ≤ ([255, 3, 7] : List Nat).length
      ∧ CHARGING_STATE (beNat [255, 3, 7] 2 1) = none
      ∧ parse_section .dcCharger ctx0 initDecState [255, 3, 7] 2 =
          some ⟨initDecState, true,
            [⟨1, dcHaName, entityUid ctx0.mac 25, .string_data, "Charge State",
              .ostrv none, false, []⟩]⟩) :=
  ⟨⟨by decide, by decide,
    (c10_unknown_codes_map_to_none ctx0 initDecState [255, 3, 2, 0, 9] []).1
      (by decide) (by decide)⟩,
   ⟨by decide, by decide,
    (c10_unknown_codes_map_to_none ctx0 initDecState [] [255, 3, 7]).2
      (by decide) (by decide)⟩⟩

/-- C9: a notification changes the session's accumulated measurement list,
section index and response-received signal only when its operation byte
matches the expected read-response code and the decoder reports valid; a
non-matching operation code, a failed operation-byte read, a parse
exception, or an invalid decode leaves the whole session state unchanged
(in particular everything other than the decoder's first-parse latch). -/
theorem c9_callback_effects :
    ∀ (f : Family) (ctx : DeviceCtx) (st : SessionState) (data : List Nat),
    (bytes_to_int data 1 1 ≠ some (READ_OPERATION f) →
      notificationCallback f ctx st data = st)
    ∧ (parse_section f ctx st.dec data st.sectionIndex = none →
      notificationCallback f ctx st data = st)
    ∧ (∀ out, parse_section f ctx st.dec data st.sectionIndex = some out →
        out.valid = false → notificationCallback f ctx st data = st)
    ∧ (∀ out, bytes_to_int data 1 1 = some (READ_OPERATION f) →
        parse_section f ctx st.dec data st.sectionIndex = some out →
        out.valid = true →
        notificationCallback f ctx st data =
          { st with dec := out.st, retDevData := st.retDevData ++ out.entities,
                    eventSet := true }) := by
  intro f ctx st data
  refine ⟨notificationCallback_silent f ctx st data, ?_, ?_, ?_⟩
  · intro hp
    unfold notificationCallback
    cases hb : bytes_to_int data 1 1 with
    | none => rfl
    | some op =>
      by_cases hop : op = READ_OPERATION f
      · simp [hop, hp]
      · simp [hop]
  · intro out hp hv
    have hout := parse_section_invalid f ctx st.dec data st.sectionIndex out hp hv
    subst hout
    unfold notificationCallback
    cases hb : bytes_to_int data 1 1 with
    | none => rfl
    | some op =>
      by_cases hop : op = READ_OPERATION f
      · simp [hop, hp]
      · simp [hop]
  · intro out hb hp hv
    unfold notificationCallback
    rw [hb]
    simp [hp, hv]

/-- Witness for C9: a payload with operation byte 99 leaves a fresh DC-DC
charger session untouched; the matching model-section payload `s0` updates
the cached model, extends the measurement list and sets the event. -/
theorem c9_witness :
    notificationCallback .dcCharger ctx0 initSession [0, 99] = initSession
    ∧ notificationCallback .dcCharger ctx0 initSession s0 =
        { initSession with dec := ⟨"RBC30D1S-G1", some "Unknown", true⟩,
                           retDevData := [], eventSet := true } :=
  ⟨(c9_callback_effects .dcCharger ctx0 initSession [0, 99]).1 (by decide),
   (c9_callback_effects .dcCharger ctx0 initSession s0).2.2.2
      ⟨⟨"RBC30D1S-G1", some "Unknown", true⟩, true, []⟩ (by decide) (by decide) rfl⟩

/-- C1 counterexample: a shunt session (which has no write characteristic)
whose transport never delivers a matching notification performs the two
attempts for its first section and fails with DeviceCommunicationError, but
sends the read request zero times, not 2. -/
theorem c1_counterexample_shunt_zero_sends :
    execute .shunt ctx0 (fun _ => []) =
      ⟨[], [0, 0], some SessionError.communicationError, []⟩ := by decide

/-- C1 (amended): for every non-test device session whose transport never
delivers a notification with the expected operation code, the session makes
exactly 2 read attempts for the first section — writing the read request on
each attempt exactly when the session has a write characteristic (inverter
and DC-DC charger: 2 sends; shunt: none) — then fails with
DeviceCommunicationError, and the poll returns zero measurements with
no partial results. -/
theorem c1_two_attempts_then_communication_error :
    ∀ (f : Family) (ctx : DeviceCtx) (arr : Nat → List (List Nat)),
    f ≠ Family.test →
    (∀ n, ∀ p ∈ arr n, bytes_to_int p 1 1 ≠ some (READ_OPERATION f)) →
    execute f ctx arr =
      ⟨if (WRITE_SERVICE_UUID f).isSome then [0, 0] else [], [0, 0],
       some SessionError.communicationError, []⟩ := by
  intro f ctx arr hf h
  have hA : ∀ k, runAttempt f ctx (arr k)
      (⟨0, [], false, initDecState⟩ : SessionState) = ⟨0, [], false, initDecState⟩ :=
    fun k => runAttempt_silent f ctx (arr k) ⟨0, [], false, initDecState⟩ (h k)
  cases f
  case test => exact absurd rfl hf
  all_goals
    simp [execute, WRITE_SERVICE_UUID, numSections, execLoop, initSession, hA]

/-- Witness for C1: a DC-DC charger session with a transport that delivers
nothing sends the first-section read request exactly twice and fails. -/
theorem c1_witness :
    Family.dcCharger ≠ Family.test
    ∧ (∀ n : Nat, ∀ p ∈ ([] : List (List Nat)),
        bytes_to_int p 1 1 ≠ some (READ_OPERATION Family.dcCharger))
    ∧ execute Family.dcCharger ctx0 (fun _ => []) =
        ⟨[0, 0], [0, 0], some SessionError.communicationError, []⟩ := by
  refine ⟨by decide, ?_, ?_⟩
  · intro n p hp
    exact absurd hp (List.not_mem_nil p)
  · have h := c1_two_attempts_then_communication_error Family.dcCharger ctx0 (fun _ => [])
      (by decide) (fun n p hp => absurd hp (List.not_mem_nil p))
    simpa using h

/-- Any successful full DC-DC charger decode has the fixed
(unique id, is-main) shape determined by the controller address alone. -/
theorem dc_fullDecode_shape (ctx : DeviceCtx) (ps : List (List Nat)) (l : List RenogyDeviceData)
    (h : fullDecode .dcCharger ctx ps = some l) : shapeOf l = dcShape ctx.mac := by
  unfold fullDecode at h
  split at h
  case isFalse => simp at h
  case isTrue hlen =>
    rcases ps with _ | ⟨p0, _ | ⟨p1, _ | ⟨p2, _ | ⟨p3, _ | ⟨p4, _ | ⟨p5, rest⟩⟩⟩⟩⟩⟩ <;>
        simp only [numSections, List.length_cons, List.length_nil] at hlen <;> try omega
    simp only [decodeSections, parse_section] at h
    rcases hu0 : utf8Decode (List.take 16 (List.drop 3 p0)) with _ | cs
    all_goals rw [dcParseDeviceInfo, hu0] at h
    case none => simp at h
    case some =>
      by_cases hg1 : 4 + 1 ≤ p1.length
      case neg => simp [dcParseDeviceAddress, bytes_to_int, hg1] at h
      case pos =>
      by_cases hg2 : 2 + 1 ≤ p2.length
      case neg => simp [dcParseDeviceAddress, dcParseState, bytes_to_int, hg1, hg2] at h
      case pos =>
      by_cases hg3 : 3 + 2 ≤ p3.length
      case neg =>
        simp [dcParseDeviceAddress, dcParseState, dcParseBatteryType, bytes_to_int,
          hg1, hg2, hg3] at h
      case pos =>
      by_cases hg4 : 63 ≤ p4.length
      case neg =>
        simp [dcParseDeviceAddress, dcParseState, dcParseBatteryType, dcParseChargingInfo,
          bytes_to_int, hg1, hg2, hg3, hg4] at h
      case pos =>
        simp only [dcParseDeviceAddress, dcParseState, dcParseBatteryType, dcParseChargingInfo,
          bytes_to_int, if_pos hg1, if_pos hg2, if_pos hg3, if_pos hg4, Option.map_some'] at h
        simp at h
        rw [← h]
        simp [shapeOf, dcShape]

/-- Any successful full inverter decode has the fixed (unique id, is-main)
shape determined by the controller address alone. -/
theorem inv_fullDecode_shape (ctx : DeviceCtx) (ps : List (List Nat)) (l : List RenogyDeviceData)
    (h : fullDecode .inverter ctx ps = some l) : shapeOf l = invShape ctx.mac := by
  unfold fullDecode at h
  split at h
  case isFalse => simp at h
  case isTrue hlen =>
    rcases ps with _ | ⟨p0, _ | ⟨p1, _ | ⟨p2, _ | ⟨p3, _ | ⟨p4, rest⟩⟩⟩⟩⟩ <;>
        simp only [numSections, List.length_cons, List.length_nil] at hlen <;> try omega
    simp only [decodeSections, parse_section] at h
    rcases hu0 : utf8Decode (List.take 16 (List.drop 3 p0)) with _ | cs
    all_goals rw [invParseModel, hu0] at h
    case none => simp at h
    case some =>
      by_cases hg1 : 3 + 2 ≤ p1.length
      case neg => simp [invParseDeviceId, bytes_to_int, hg1] at h
      case pos =>
      by_cases hg2 : 23 ≤ p2.length
      case neg => simp [invParseDeviceId, invParseStats, bytes_to_int, hg1, hg2] at h
      case pos =>
      by_cases hg3 : 15 ≤ p3.length
      case neg =>
        simp [invParseDeviceId, invParseStats, invParseLoadInfo, bytes_to_int,
          hg1, hg2, hg3] at h
      case pos =>
        simp only [invParseDeviceId, invParseStats, invParseLoadInfo, bytes_to_int,
          if_pos hg1, if_pos hg2, if_pos hg3, Option.map_some'] at h
        simp at h
        rw [← h]
        simp [shapeOf, invShape]

/-- Any successful full shunt decode has the fixed (unique id, is-main)
shape determined by the controller address alone. -/
theorem shunt_fullDecode_shape (ctx : DeviceCtx) (ps : List (List Nat))
    (l : List RenogyDeviceData)
    (h : fullDecode .shunt ctx ps = some l) : shapeOf l = shuntShape ctx.mac := by
  unfold fullDecode at h
  split at h
  case isFalse => simp at h
  case isTrue hlen =>
    rcases ps with _ | ⟨p0, _ | ⟨p1, rest⟩⟩ <;>
        simp only [numSections, List.length_cons, List.length_nil] at hlen <;> try omega
    simp only [decodeSections, parse_section] at h
    by_cases hg : 110 ≤ p0.length
    case neg => simp [shuntParseSection, initDecState, hg] at h
    case pos =>
      simp [shuntParseSection, initDecState, hg] at h
      rw [← h]
      simp [shapeOf, shuntShape]

/-- Any successful full test-device decode has the fixed (unique id,
is-main) shape determined by the controller address alone. -/
theorem test_fullDecode_shape (ctx : DeviceCtx) (ps : List (List Nat))
    (l : List RenogyDeviceData)
    (h : fullDecode .test ctx ps = some l) : shapeOf l = testShape ctx.mac := by
  unfold fullDecode at h
  split at h
  case isFalse => simp at h
  case isTrue hlen =>
    rcases ps with _ | ⟨p0, _ | ⟨p1, rest⟩⟩ <;>
        simp only [numSections, List.length_cons, List.length_nil] at hlen <;> try omega
    simp only [decodeSections, parse_section] at h
    simp [testParseSection, initDecState] at h
    rw [← h]
    simp [shapeOf, testShape]

/-- The `Char.ofNat` and `Char.toNat` are mutually inverse on the lowercase
ASCII range. -/
theorem charOfNat_toNat (n : Nat) (h1 : 97 ≤ n) (h2 : n ≤ 122) : (Char.ofNat n).toNat = n := by
  have hv : Char.isValidCharNat n := Or.inl (by omega)
  rw [Char.ofNat, dif_pos hv]
  rfl

/-- ASCII lower-casing can only produce a colon from a colon. -/
theorem toLower_eq_colon (a : Char) (h : a.toLower = ':') : a = ':' := by
  simp only [Char.toLower] at h
  split at h
  · exfalso
    have hv := congrArg Char.toNat h
    have hn : (Char.ofNat (a.toNat + 32)).toNat = a.toNat + 32 := by
      apply charOfNat_toNat <;> omega
    rw [hn] at hv
    have h58 : (':' : Char).toNat = 58 := rfl
    omega
  · exact h

/-- C5: for every device family, any successful full decode of one payload
per section in order yields a measurement list with exactly one measurement
marked primary (is_main = true). -/
theorem c5_exactly_one_primary :
    ∀ (f : Family) (ctx : DeviceCtx) (ps : List (List Nat)) (l : List RenogyDeviceData),
    fullDecode f ctx ps = some l → l.countP (fun d => d.is_main) = 1 := by
  intro f ctx ps l h
  have hmain : l.countP (fun d => d.is_main) =
      (shapeOf l).countP (fun x => x.2) :=
    (List.countP_map (fun x : String × Bool => x.2)
      (fun d : RenogyDeviceData => (d.device_unique_id, d.is_main)) l).symm
  cases f
  case dcCharger =>
    rw [hmain, dc_fullDecode_shape ctx ps l h]
    simp [dcShape]
  case inverter =>
    rw [hmain, inv_fullDecode_shape ctx ps l h]
    simp [invShape]
  case shunt =>
    rw [hmain, shunt_fullDecode_shape ctx ps l h]
    simp [shuntShape]
  case test =>
    rw [hmain, test_fullDecode_shape ctx ps l h]
    simp [testShape]

/-- Witness for C5: concrete successful decodes for all four families, each
with exactly one primary measurement. -/
theorem c5_witness :
    (fullDecode .dcCharger ctx0 dcPayloads = some dcDemo
      ∧ dcDemo.countP (fun d => d.is_main) = 1)
    ∧ (fullDecode .inverter ctx0 invPayloads = some invDemo
      ∧ invDemo.countP (fun d => d.is_main) = 1)
    ∧ (fullDecode .shunt ctx0 shuntPayloads = some shuntDemo
      ∧ shuntDemo.countP (fun d => d.is_main) = 1)
    ∧ (fullDecode .test ctx0 testPayloads = some testDemo
      ∧ testDemo.countP (fun d => d.is_main) = 1) :=
  ⟨⟨by decide, c5_exactly_one_primary .dcCharger ctx0 dcPayloads dcDemo (by decide)⟩,
   ⟨by decide, c5_exactly_one_primary .inverter ctx0 invPayloads invDemo (by decide)⟩,
   ⟨by decide, c5_exactly_one_primary .shunt ctx0 shuntPayloads shuntDemo (by decide)⟩,
   ⟨by decide, c5_exactly_one_primary .test ctx0 testPayloads testDemo (by decide)⟩⟩

/-- C7: every emitted unique id is the deterministic function
"renogy_" ++ (address lower-cased with each colon replaced by an
underscore) ++ "_id" ++ "_" ++ entity index; the address part contains no
colon; for every device family, the unique ids of any successful full
decode are exactly the family's fixed list of `entityUid address k` values
at small concrete entity indices, independent of the payloads; hence two
polls of the same controller yield identical unique ids for the same
entities, for every family. -/
theorem c7_unique_id_derivation_and_stability :
    ∀ (mac : String) (k : Nat),
    entityUid mac k = "renogy_" ++ pyLowerReplaceColon mac ++ "_id" ++ "_" ++ toString k
    ∧ (∀ c ∈ (pyLowerReplaceColon mac).data, c ≠ ':')
    ∧ (∀ (f : Family) (ctx : DeviceCtx) (ps : List (List Nat)) (l : List RenogyDeviceData),
        fullDecode f ctx ps = some l →
        l.map (fun d => d.device_unique_id) = (familyShape f ctx.mac).map Prod.fst)
    ∧ (∀ (f : Family) (ctx ctx' : DeviceCtx) (ps ps' : List (List Nat))
        (l l' : List RenogyDeviceData),
        ctx.mac = ctx'.mac →
        fullDecode f ctx ps = some l →
        fullDecode f ctx' ps' = some l' →
        l.map (fun d => d.device_unique_id) = l'.map (fun d => d.device_unique_id)) := by
  intro mac k
  have huid : ∀ (f : Family) (ctx : DeviceCtx) (ps : List (List Nat))
      (l : List RenogyDeviceData), fullDecode f ctx ps = some l →
      l.map (fun d => d.device_unique_id) = (familyShape f ctx.mac).map Prod.fst := by
    intro f ctx ps l h
    have hs : shapeOf l = familyShape f ctx.mac := by
      cases f
      case inverter => exact inv_fullDecode_shape ctx ps l h
      case dcCharger => exact dc_fullDecode_shape ctx ps l h
      case shunt => exact shunt_fullDecode_shape ctx ps l h
      case test => exact test_fullDecode_shape ctx ps l h
    have e1 : l.map (fun d => d.device_unique_id) = (shapeOf l).map Prod.fst := by
      rw [shapeOf, List.map_map]
      rfl
    rw [e1, hs]
  refine ⟨rfl, ?_, huid, ?_⟩
  · intro c hc
    replace hc : c ∈ mac.data.map (fun c => if c = ':' then '_' else c.toLower) := hc
    rw [List.mem_map] at hc
    obtain ⟨a, _, rfl⟩ := hc
    by_cases hca : a = ':'
    · simp [hca]
    · simp only [if_neg hca]
      intro e
      exact hca (toLower_eq_colon a e)
  · intro f ctx ctx' ps ps' l l' hm h h'
    rw [huid f ctx ps l h, huid f ctx' ps' l' h', hm]

/-- Witness for C7: for each of the four families, a concrete successful
decode whose unique-id list is the family's fixed `entityUid` list, and two
polls with different payload contents (DC-DC charger and shunt) producing
the same unique-id lists. -/
theorem c7_witness :
    (ctx0.mac = ctx0.mac)
    ∧ fullDecode .dcCharger ctx0 dcPayloads = some dcDemo
    ∧ fullDecode .dcCharger ctx0 dcPayloadsB = some dcDemoB
    ∧ dcDemo.map (fun d => d.device_unique_id) =
        dcDemoB.map (fun d => d.device_unique_id)
    ∧ fullDecode .shunt ctx0 shuntPayloads = some shuntDemo
    ∧ fullDecode .shunt ctx0 shuntPayloadsB = some shuntDemoB
    ∧ shuntDemo.map (fun d => d.device_unique_id) =
        shuntDemoB.map (fun d => d.device_unique_id)
    ∧ shuntDemo.map (fun d => d.device_unique_id) =
        (familyShape .shunt ctx0.mac).map Prod.fst
    ∧ fullDecode .inverter ctx0 invPayloads = some invDemo
    ∧ invDemo.map (fun d => d.device_unique_id) =
        (familyShape .inverter ctx0.mac).map Prod.fst
    ∧ fullDecode .test ctx0 testPayloads = some testDemo
    ∧ testDemo.map (fun d => d.device_unique_id) =
        (familyShape .test ctx0.mac).map Prod.fst
    ∧ entityUid ctx0.mac 5 =
        "renogy_" ++ pyLowerReplaceColon ctx0.mac ++ "_id" ++ "_" ++ toString 5 :=
  ⟨rfl, by decide, by decide,
   (c7_unique_id_derivation_and_stability ctx0.mac 5).2.2.2 .dcCharger ctx0 ctx0
     dcPayloads dcPayloadsB dcDemo dcDemoB rfl (by decide) (by decide),
   by decide, by decide,
   (c7_unique_id_derivation_and_stability ctx0.mac 5).2.2.2 .shunt ctx0 ctx0
     shuntPayloads shuntPayloadsB shuntDemo shuntDemoB rfl (by decide) (by decide),
   (c7_unique_id_derivation_and_stability ctx0.mac 5).2.2.1 .shunt ctx0
     shuntPayloads shuntDemo (by decide),
   by decide,
   (c7_unique_id_derivation_and_stability ctx0.mac 5).2.2.1 .inverter ctx0
     invPayloads invDemo (by decide),
   by decide,
   (c7_unique_id_derivation_and_stability ctx0.mac 5).2.2.1 .test ctx0
     testPayloads testDemo (by decide),
   (c7_unique_id_derivation_and_stability ctx0.mac 5).1⟩

/-- C8 counterexample: dispatching the unknown tag "Foo" performs one BLE
address lookup before failing, and the failure is APIConnectionError — the
code defines no UnknownDeviceType error at all. -/
theorem c8_counterexample_unknown_tag :
    get_devices "Foo" true (fun _ => [dummyDev]) =
      ⟨1, [], .err .apiConnectionError⟩ := by decide

/-- C8 (amended): for every tag outside {Inverter, DcDcCharger,
SmartShunt300, TestDevice}, the dispatch constructs and executes no device
session; it first performs the BLE address lookup (raising
ConfigEntryNotReady when the address does not resolve) and then, having
gathered no measurements, fails with APIConnectionError — not with an
UnknownDeviceType error, which the code does not define. -/
theorem c8_unknown_tag_no_session :
    ∀ (tag : String) (found : Bool) (run : Family → List RenogyDeviceData),
    tag ∉ (["Inverter", "DcDcCharger", "SmartShunt300", "TestDevice"] : List String) →
    get_devices tag found run =
      ⟨1, [], .err (if found then ApiError.apiConnectionError
                    else ApiError.configEntryNotReady)⟩ := by
  intro tag found run htag
  simp only [List.mem_cons, List.not_mem_nil, or_false] at htag
  push_neg at htag
  obtain ⟨h1, h2, h3, h4⟩ := htag
  unfold get_devices
  cases found
  case false =>
    rw [if_pos ⟨h4, rfl⟩]
    simp
  case true =>
    rw [if_neg (by simp)]
    simp [h1, h2, h3, h4]

/-- Witness for C8 at the concrete tag "Foo" with a resolvable address and
a non-empty session oracle. -/
theorem c8_witness :
    ("Foo" : String) ∉ (["Inverter", "DcDcCharger", "SmartShunt300", "TestDevice"] : List String)
    ∧ get_devices "Foo" true (fun _ => [dummyDev]) = ⟨1, [], .err .apiConnectionError⟩ :=
  ⟨by decide,
   by simpa using c8_unknown_tag_no_session "Foo" true (fun _ => [dummyDev]) (by decide)⟩

end Renogy
